import Mathlib

/-!
Verification development for the `openclaw-link-capture` repository
(`scripts/capture.py`, `scripts/fetchers/{twitter,youtube,web}.py`,
`scripts/storage/{sqlite,nmem}.py`).

Python dictionaries are embedded as Lean structures with the same field
names; `dict.get(k, default)` on a stats dictionary is embedded as an
association-list lookup with a default.  Python string slicing `s[:n]`
is character based, embedded as `pyTake`.  Python floats appearing only
as the fixed quantized importance levels are embedded as rationals.
-/

/-- Python `s[:n]` (character-based slice). -/
def pyTake (s : String) (n : Nat) : String := String.mk (s.data.take n)

/-- Python `s.lower()` (per-character lowering; the source only relies on
ASCII case folding for its keyword table). -/
def strLower (s : String) : String := String.mk (s.data.map Char.toLower)

/-- Python `s.strip()`: drop whitespace from both ends. -/
def trimChars (cs : List Char) : List Char :=
  ((cs.dropWhile Char.isWhitespace).reverse.dropWhile Char.isWhitespace).reverse

/-- Python `s.strip()` on strings. -/
def trimStr (s : String) : String := String.mk (trimChars s.data)

/-- Python `s.startswith(p)` (also used to embed the anchored `re.match`
patterns of the URL classifiers, which are plain alternations of literal
prefixes). -/
def strStartsWith (s p : String) : Bool := p.data.isPrefixOf s.data

/-- Substring occurrence, embedding Python's `needle in haystack`. -/
def substrB (needle hay : List Char) : Bool :=
  if needle.isPrefixOf hay then true
  else
    match hay with
    | [] => false
    | _ :: t => substrB needle t

/-- Split a digit list into groups of three (used for `f"{n:,}"`). -/
def chunks3 {α : Type} : List α → List (List α)
  | a :: b :: c :: rest => [a, b, c] :: chunks3 rest
  | [a, b] => [[a, b]]
  | [a] => [[a]]
  | [] => []

/-- Python `f"{n:,}"`: decimal rendering with thousands separators. -/
def commaFmt (n : Nat) : String :=
  let ds := (toString n).data.reverse
  String.intercalate "," (((chunks3 ds).map List.reverse).reverse.map String.mk)

/-! ## SHA-256 (`hashlib.sha256`), used by `storage/sqlite.py::_url_id`

A direct executable embedding of SHA-256 over byte lists, with all word
arithmetic as `Nat` reduced mod `2^32`. -/

/-- Truncate to 32 bits. -/
def w32 (x : Nat) : Nat := x % 4294967296

/-- 32-bit right rotation (input assumed `< 2^32`). -/
def rotr (n x : Nat) : Nat := w32 ((x >>> n) ||| (x <<< (32 - n)))

def shaCh (x y z : Nat) : Nat := (x &&& y) ^^^ ((x ^^^ 4294967295) &&& z)

def shaMaj (x y z : Nat) : Nat := (x &&& y) ^^^ (x &&& z) ^^^ (y &&& z)

def bigS0 (x : Nat) : Nat := rotr 2 x ^^^ rotr 13 x ^^^ rotr 22 x

def bigS1 (x : Nat) : Nat := rotr 6 x ^^^ rotr 11 x ^^^ rotr 25 x

def smallS0 (x : Nat) : Nat := rotr 7 x ^^^ rotr 18 x ^^^ (x >>> 3)

def smallS1 (x : Nat) : Nat := rotr 17 x ^^^ rotr 19 x ^^^ (x >>> 10)

/-- SHA-256 round constants (FIPS 180-4, written in decimal). -/
def K64 : List Nat :=
  [1116352408, 1899447441, 3049323471, 3921009573, 961987163,
   1508970993, 2453635748, 2870763221, 3624381080, 310598401,
   607225278, 1426881987, 1925078388, 2162078206, 2614888103,
   3248222580, 3835390401, 4022224774, 264347078, 604807628,
   770255983, 1249150122, 1555081692, 1996064986, 2554220882,
   2821834349, 2952996808, 3210313671, 3336571891, 3584528711,
   113926993, 338241895, 666307205, 773529912, 1294757372,
   1396182291, 1695183700, 1986661051, 2177026350, 2456956037,
   2730485921, 2820302411, 3259730800, 3345764771, 3516065817,
   3600352804, 4094571909, 275423344, 430227734, 506948616,
   659060556, 883997877, 958139571, 1322822218, 1537002063,
   1747873779, 1955562222, 2024104815, 2227730452, 2361852424,
   2428436474, 2756734187, 3204031479, 3329325298]

/-- SHA-256 working state (eight 32-bit words). -/
structure H8 where
  a : Nat
  b : Nat
  c : Nat
  d : Nat
  e : Nat
  f : Nat
  g : Nat
  h : Nat

/-- SHA-256 initial hash value. -/
def shaInit : H8 :=
  ⟨1779033703, 3144134277, 1013904242, 2773480762,
   1359893119, 2600822924, 528734635, 1541459225⟩

/-- One compression round. -/
def shaRound (st : H8) (wk : Nat × Nat) : H8 :=
  let t1 := w32 (st.h + bigS1 st.e + shaCh st.e st.f st.g + wk.1 + wk.2)
  let t2 := w32 (bigS0 st.a + shaMaj st.a st.b st.c)
  ⟨w32 (t1 + t2), st.a, st.b, st.c, w32 (st.d + t1), st.e, st.f, st.g⟩

/-- Big-endian 4-byte groups to 32-bit words. -/
def chunks4 : List Nat → List (List Nat)
  | a :: b :: c :: d :: rest => [a, b, c, d] :: chunks4 rest
  | rest => if rest.isEmpty then [] else [rest]

def bytesToWord (bs : List Nat) : Nat := bs.foldl (fun acc b => acc * 256 + b) 0

/-- Extend 16 message words to the 64-word schedule. -/
def shaSchedule (ws : List Nat) : List Nat :=
  (List.range 48).foldl
    (fun acc _ =>
      let i := acc.length
      acc ++ [w32 (acc.getD (i - 16) 0 + smallS0 (acc.getD (i - 15) 0) +
                   acc.getD (i - 7) 0 + smallS1 (acc.getD (i - 2) 0))])
    ws

/-- Compress one 64-byte chunk into the state. -/
def shaCompress (st : H8) (chunk : List Nat) : H8 :=
  let ws := shaSchedule ((chunks4 chunk).map bytesToWord)
  let t := (ws.zip K64).foldl shaRound st
  ⟨w32 (st.a + t.a), w32 (st.b + t.b), w32 (st.c + t.c), w32 (st.d + t.d),
   w32 (st.e + t.e), w32 (st.f + t.f), w32 (st.g + t.g), w32 (st.h + t.h)⟩

/-- 8-byte big-endian encoding (the padded bit-length field). -/
def beBytes8 (n : Nat) : List Nat :=
  [n >>> 56 % 256, n >>> 48 % 256, n >>> 40 % 256, n >>> 32 % 256,
   n >>> 24 % 256, n >>> 16 % 256, n >>> 8 % 256, n % 256]

/-- SHA-256 message padding. -/
def shaPad (msg : List Nat) : List Nat :=
  msg ++ 0x80 :: List.replicate ((119 - msg.length % 64) % 64) 0 ++ beBytes8 (msg.length * 8)

/-- Split into 64-byte chunks. -/
def chunks64 (l : List Nat) : List (List Nat) :=
  match l with
  | [] => []
  | x :: xs => ((x :: xs).take 64) :: chunks64 ((x :: xs).drop 64)
termination_by l.length
decreasing_by simp [List.length_drop]; omega

/-- Word to big-endian bytes. -/
def wordBytes (x : Nat) : List Nat := [x >>> 24 % 256, x >>> 16 % 256, x >>> 8 % 256, x % 256]

/-- The eight final hash words. -/
def sha256Words (msg : List Nat) : List Nat :=
  let st := (chunks64 (shaPad msg)).foldl shaCompress shaInit
  [st.a, st.b, st.c, st.d, st.e, st.f, st.g, st.h]

/-- The 32-byte SHA-256 digest. -/
def sha256Bytes (msg : List Nat) : List Nat := ((sha256Words msg).map wordBytes).flatten

def hexDigit (n : Nat) : Char := if n < 10 then Char.ofNat (48 + n) else Char.ofNat (87 + n)

/-- Two lowercase hex digits of a byte. -/
def byteHex (b : Nat) : List Char := [hexDigit (b / 16), hexDigit (b % 16)]

/-- `hashlib.sha256(x).hexdigest()` as a char list. -/
def sha256hexChars (msg : List Nat) : List Char := ((sha256Bytes msg).map byteHex).flatten

/-- `url.encode()`: UTF-8 bytes of a string. -/
def utf8Char (c : Char) : List Nat :=
  let n := c.toNat
  if n < 0x80 then [n]
  else if n < 0x800 then [0xc0 + n / 64, 0x80 + n % 64]
  else if n < 0x10000 then [0xe0 + n / 4096, 0x80 + (n / 64) % 64, 0x80 + n % 64]
  else [0xf0 + n / 262144, 0x80 + (n / 4096) % 64, 0x80 + (n / 64) % 64, 0x80 + n % 64]

def utf8Bytes (s : String) : List Nat := (s.data.map utf8Char).flatten

/-- `storage/sqlite.py::_url_id`:
`hashlib.sha256(url.encode()).hexdigest()[:16]`. -/
def _url_id (url : String) : String :=
  String.mk ((sha256hexChars (utf8Bytes url)).take 16)

/-! ## Data model

The fetchers' capture dictionaries share a unified field set; fields a
given fetcher does not set keep their Python-`get` defaults (`""`, `[]`,
`none`, `0`).  `stats` is a dictionary embedded as an association list so
that Python dict truthiness (`if stats:`) is list non-emptiness. -/

/-- `stats.get(key, 0)` — first binding wins, absent keys are zero. -/
def statGet (stats : List (String × Nat)) (key : String) : Nat :=
  ((stats.find? (fun p => p.1 == key)).map (fun p => p.2)).getD 0

/-- The normalized capture dictionary produced by the fetchers. -/
structure Capture where
  url : String := ""
  url_type : String := "web"
  title : String := ""
  author : String := ""
  content : String := ""
  published_at : String := ""
  stats : List (String × Nat) := []
  screen_name : String := ""
  quote_tweet : Option (String × String) := none
  channel : String := ""
  transcript : String := ""
  transcript_method : String := ""
  duration_secs : Nat := 0
  domain : String := ""
  media_urls : List String := []

/-! ## `storage/nmem.py` -/

/-- `storage/nmem.py::compute_importance`.  The quantized float levels
0.9 / 0.8 / 0.65 / 0.5 are embedded as the rationals they denote. -/
def compute_importance (capture : Capture) : ℚ :=
  let views := statGet capture.stats "views"
  let bookmarks := statGet capture.stats "bookmarks"
  let likes := statGet capture.stats "likes"
  if capture.url_type = "twitter" then
    if views > 500000 ∨ bookmarks > 5000 then 9 / 10
    else if views > 100000 ∨ bookmarks > 2000 ∨ likes > 5000 then 8 / 10
    else if views > 10000 ∨ likes > 500 then 13 / 20
    else 1 / 2
  else if capture.url_type = "youtube" then
    if views > 1000000 then 8 / 10
    else if views > 100000 then 13 / 20
    else 1 / 2
  else 1 / 2

/-- The spec's source kinds (`tweet`, `video`, `web`). -/
inductive SourceKind where
  | tweet
  | video
  | web
deriving DecidableEq

/-- The source kind of a capture, as the spec's vocabulary maps onto the
source's `url_type` strings. -/
def sourceKindOf (capture : Capture) : SourceKind :=
  if capture.url_type = "twitter" then .tweet
  else if capture.url_type = "youtube" then .video
  else .web

/-- Modelled from the spec's words for claim C1: the quantized decision
table keyed by source kind, conditions evaluated in the listed order
(first match wins), strict greater-than comparisons. -/
def importanceSpecTable (k : SourceKind) (views bookmarks likes : Nat) : ℚ :=
  match k with
  | .tweet =>
    if views > 500000 ∨ bookmarks > 5000 then 9 / 10
    else if views > 100000 ∨ bookmarks > 2000 ∨ likes > 5000 then 8 / 10
    else if views > 10000 ∨ likes > 500 then 13 / 20
    else 1 / 2
  | .video =>
    if views > 1000000 then 8 / 10
    else if views > 100000 then 13 / 20
    else 1 / 2
  | .web => 1 / 2

/-- `storage/nmem.py::_auto_labels` topic table (`topic_map`), in source
order (Python dicts preserve insertion order). -/
def topic_map : List (String × List String) :=
  [("openclaw", ["openclaw", "claude", "anthropic"]),
   ("ai-agents", ["agent", "agentic", "multi-agent", "llm", "gpt"]),
   ("robotics", ["robot", "humanoid", "unitree", "embodied"]),
   ("twitter", ["twitter", "tweet", "x.com", "@"]),
   ("real-estate", ["real estate", "property", "zealty", "mls", "housing"]),
   ("school-district", ["school", "district", "iusd", "university high", "irvine"]),
   ("immigration", ["visa", "green card", "eb-5", "immigration"]),
   ("content-strategy", ["content", "strategy", "growth", "audience", "viral"]),
   ("engineering", ["code", "scraper", "python", "api", "pipeline", "etl"]),
   ("north-shore-crossing", ["lions gate", "ironworkers", "bridge", "north shore"])]

/-- `storage/nmem.py::_auto_labels`. -/
def _auto_labels (capture : Capture) (summary : String) : List String :=
  let text := strLower (capture.title ++ " " ++ summary)
  let labels := ["source-" ++ capture.url_type]
  let labels := topic_map.foldl
    (fun acc lk => if lk.2.any (fun kw => substrB kw.data text.data) then acc ++ [lk.1] else acc)
    labels
  labels.take 6

/-- The topic labels whose keyword lists fire on a capture (table order),
used to state what `_auto_labels` appends after the source label. -/
def matchedTopicLabels (capture : Capture) (summary : String) : List String :=
  (topic_map.filter
    (fun lk => lk.2.any
      (fun kw => substrB kw.data (strLower (capture.title ++ " " ++ summary)).data))).map
    (fun lk => lk.1)

/-- The payload dictionary built by `storage/nmem.py::format_for_nmem`. -/
structure NmemPayload where
  title : String
  text : String
  unit_type : String
  labels : List String
  importance : ℚ
  event_start : Option String
deriving DecidableEq

/-- `storage/nmem.py::format_for_nmem`. -/
def format_for_nmem (capture : Capture) (summary : String) : NmemPayload :=
  let url_type := capture.url_type
  let stats := capture.stats
  let title :=
    if url_type = "twitter" then
      if capture.screen_name ≠ "" then "[@" ++ capture.screen_name ++ "] " ++ pyTake capture.title 55
      else pyTake capture.title 60
    else if url_type = "youtube" then
      let channel := if capture.channel ≠ "" then capture.channel else capture.author
      pyTake ("[YouTube] " ++ pyTake capture.title 45 ++ " — " ++ channel) 60
    else capture.title
  let stats_line :=
    if url_type = "twitter" ∧ stats ≠ [] then
      "数据：" ++ commaFmt (statGet stats "views") ++ "播放，" ++
        commaFmt (statGet stats "bookmarks") ++ "收藏，" ++
        commaFmt (statGet stats "likes") ++ "赞\n"
    else if url_type = "youtube" ∧ stats ≠ [] then
      "数据：" ++ commaFmt (statGet stats "views") ++ "播放，" ++
        commaFmt (statGet stats "likes") ++ "赞\n"
    else ""
  let transcript_note :=
    if url_type = "youtube" then "字幕来源：" ++ capture.transcript_method ++ "\n" else ""
  let text :=
    "来源：" ++ capture.url ++ " / " ++ capture.author ++ " / " ++ capture.published_at ++ "\n" ++
      stats_line ++ transcript_note ++ "\n" ++ summary
  let labels := _auto_labels capture summary
  let pub := capture.published_at
  let event_start := if pub ≠ "" ∧ pub.length ≥ 10 then some (pyTake pub 10) else none
  { title := title, text := text,
    unit_type := if url_type = "twitter" ∨ url_type = "youtube" then "event" else "fact",
    labels := labels, importance := compute_importance capture, event_start := event_start }

/-! ## URL classifiers and the router (`capture.py::fetch`)

The three `is_*_url` checks are anchored `re.match` patterns that are
plain alternations of literal prefixes; they are embedded as prefix
tests against the expanded alternation. -/

/-- The prefixes matched by `fetchers/twitter.py::is_twitter_url`'s
pattern `https?://(www\.)?(twitter\.com|x\.com|t\.co)/`. -/
def twitterUrlPats : List String :=
  ["http://twitter.com/", "http://x.com/", "http://t.co/",
   "http://www.twitter.com/", "http://www.x.com/", "http://www.t.co/",
   "https://twitter.com/", "https://x.com/", "https://t.co/",
   "https://www.twitter.com/", "https://www.x.com/", "https://www.t.co/"]

/-- `fetchers/twitter.py::is_twitter_url`. -/
def is_twitter_url (url : String) : Bool := twitterUrlPats.any (fun p => strStartsWith url p)

/-- The prefixes matched by `fetchers/youtube.py::is_youtube_url`'s
pattern `https?://(www\.)?(youtube\.com/watch|youtu\.be/|youtube\.com/shorts/)`. -/
def youtubeUrlPats : List String :=
  ["http://youtube.com/watch", "http://youtu.be/", "http://youtube.com/shorts/",
   "http://www.youtube.com/watch", "http://www.youtu.be/", "http://www.youtube.com/shorts/",
   "https://youtube.com/watch", "https://youtu.be/", "https://youtube.com/shorts/",
   "https://www.youtube.com/watch", "https://www.youtu.be/", "https://www.youtube.com/shorts/"]

/-- `fetchers/youtube.py::is_youtube_url`. -/
def is_youtube_url (url : String) : Bool := youtubeUrlPats.any (fun p => strStartsWith url p)

/-- `fetchers/web.py::is_web_url`. -/
def is_web_url (url : String) : Bool :=
  strStartsWith url "http://" || strStartsWith url "https://"

/-- Which fetcher module `capture.py::fetch` routes to. -/
inductive Fetcher where
  | twitter
  | youtube
  | web
deriving DecidableEq

/-- The routing decision of `capture.py::fetch`: the selected fetcher, or
the `ValueError f"Unsupported URL: {url}"` message when no pattern
matches (in which case no fetcher is invoked). -/
def fetchRoute (url : String) : Except String Fetcher :=
  if is_twitter_url url then .ok .twitter
  else if is_youtube_url url then .ok .youtube
  else if is_web_url url then .ok .web
  else .error ("Unsupported URL: " ++ url)

/-! ## `fetchers/twitter.py::fetch`

The network call and JSON decode are external; the embedding takes the
decoded FxTwitter response fields as input (`TweetData`) and models the
normalization the function performs on them.  `raw_text` is modelled as
the string it contributes (`raw.get("text","")` for the dict shape,
`str(raw)` otherwise); `note_tweet`/`article` are `Option`s carrying the
text fields the source reads from them. -/

structure TweetAuthor where
  name : String := ""
  screen_name : String := ""

structure TweetData where
  text : String := ""
  raw_text : String := ""
  note_tweet : Option String := none
  article : Option (String × String) := none
  author : TweetAuthor := {}
  created_at : String := ""
  views : Option Nat := none
  likes : Option Nat := none
  retweets : Option Nat := none
  bookmarks : Option Nat := none
  replies : Option Nat := none
  media_photos : List String := []
  media_videos : List String := []
  quote : Option (String × String) := none

/-- The `content` selection in `fetchers/twitter.py::fetch`:
`tweet.get("text","") or raw_str`, overridden by `note_tweet.text` when
present, overridden by `f"{title}\n\n{full_text}"` when an article with
non-empty `full_text` is present. -/
def twitterContent (t : TweetData) : String :=
  let content := if t.text ≠ "" then t.text else t.raw_text
  let content := match t.note_tweet with
    | some nt => nt
    | none => content
  match t.article with
  | some a => if a.2 ≠ "" then a.1 ++ "\n\n" ++ a.2 else content
  | none => content

/-- `media_urls` as collected from `tweet.media.photos ++ tweet.media.videos`. -/
def twitterMediaUrls (t : TweetData) : List String := t.media_photos ++ t.media_videos

/-- The `is_media_only` flag computed (and then discarded) by
`fetchers/twitter.py::fetch` line 48: `bool(media_urls) and not content.strip()`. -/
def is_media_only (t : TweetData) : Bool :=
  !(twitterMediaUrls t).isEmpty && (trimStr (twitterContent t) == "")

/-- The capture dictionary returned by `fetchers/twitter.py::fetch`. -/
def twitter_fetch (url : String) (t : TweetData) : Capture :=
  let content := twitterContent t
  { url := url,
    url_type := "twitter",
    title := "@" ++ t.author.screen_name ++ ": " ++ pyTake content 80 ++ "...",
    author := t.author.name,
    screen_name := t.author.screen_name,
    content := content,
    published_at := t.created_at,
    stats := [("views", t.views.getD 0), ("likes", t.likes.getD 0),
              ("retweets", t.retweets.getD 0), ("bookmarks", t.bookmarks.getD 0),
              ("replies", t.replies.getD 0)],
    media_urls := twitterMediaUrls t,
    quote_tweet := t.quote }

/-! ## `fetchers/youtube.py::_parse_vtt` -/

/-- `re.match(r"^\d{2}:\d{2}", line)`: two digits, a colon, two digits
at the start of the line. -/
def vttTimestampStart (l : String) : Bool :=
  match l.data with
  | d1 :: d2 :: c :: d3 :: d4 :: _ =>
    d1.isDigit && d2.isDigit && (c == ':') && d3.isDigit && d4.isDigit
  | _ => false

/-- `re.match(r"^\d+$", line)`: non-empty and all digits. -/
def vttAllDigits (l : String) : Bool := (l != "") && l.data.all Char.isDigit

/-- The skip test of `_parse_vtt`: empty line, `WEBVTT` header,
timestamp, `NOTE`, or cue number (on the already-stripped line). -/
def vttSkip (l : String) : Bool :=
  (l == "") || strStartsWith l "WEBVTT" || vttTimestampStart l ||
    strStartsWith l "NOTE" || vttAllDigits l

mutual

/-- `re.sub(r"<[^>]+>", "", line)`: drop HTML-tag spans.  A `<` with at
least one following non-`>` character up to a closing `>` is removed
(the regex scan is left-to-right and non-overlapping); a `<` that opens
no such span is kept literally. -/
def stripTags : List Char → List Char
  | [] => []
  | c :: rest => if c = '<' then stripTagsOpen [] rest else c :: stripTags rest

/-- Helper of `stripTags`: scanning inside a candidate tag span whose
body so far is `buf` (reversed). -/
def stripTagsOpen (buf : List Char) : List Char → List Char
  | [] => '<' :: buf.reverse
  | c :: rest =>
    if c = '>' then
      if buf.isEmpty then '<' :: '>' :: stripTags rest else stripTags rest
    else stripTagsOpen (c :: buf) rest

end

/-- The per-line step of `_parse_vtt`'s loop; the state is the pair
(`seen`, `lines`) — the Python `set` is embedded as the list of already
emitted lines, which it always equals element-for-element since both are
extended together. -/
def vttStep (acc : List String × List String) (line : String) : List String × List String :=
  let l := trimStr line
  if vttSkip l then acc
  else
    let clean := trimStr (String.mk (stripTags l.data))
    if clean != "" && !(acc.1.contains clean) then (acc.1 ++ [clean], acc.2 ++ [clean]) else acc

/-- `fetchers/youtube.py::_parse_vtt`, over the already-split lines of
the file (`text.splitlines()`); file reading is external. -/
def _parse_vtt (lines : List String) : String :=
  String.intercalate " " (lines.foldl vttStep ([], [])).2

/-- The cleaned caption candidate a line contributes before
deduplication (`none` when the line is skipped or cleans to empty). -/
def vttClean (line : String) : Option String :=
  let l := trimStr line
  if vttSkip l then none
  else
    let clean := trimStr (String.mk (stripTags l.data))
    if clean != "" then some clean else none

/-- All caption candidates of a file, in order. -/
def vttCandidates (lines : List String) : List String := lines.filterMap vttClean

/-- First-seen-order deduplication (the spec's description of the
`seen`-set filtering), relative to an already-seen list. -/
def dedupFirstAux (seen : List String) : List String → List String
  | [] => []
  | x :: xs =>
    if seen.contains x then dedupFirstAux seen xs
    else x :: dedupFirstAux (seen ++ [x]) xs

/-- First-seen-order deduplication of a list. -/
def dedupFirst (l : List String) : List String := dedupFirstAux [] l

/-! ## `storage/sqlite.py::SQLiteBackend`

The `captures` table (`id TEXT PRIMARY KEY, url TEXT UNIQUE, ...`) is
embedded as a list of rows; `INSERT OR REPLACE` first removes any row
conflicting on either unique column (`id` or `url`) and then inserts the
new row.  `labels`/`stats` are stored JSON-encoded in the source; the
embedding keeps them as the encoded values.  The `extra_json` column
(the leftover dictionary keys) carries no field of the embedded record
shape and is omitted. -/

/-- One row of the `captures` table. -/
structure StoredRow where
  id : String
  url : String
  url_type : String
  title : String
  author : String
  content : String
  summary : String
  labels : List String
  importance : ℚ
  published_at : String
  captured_at : String
  stats : List (String × Nat)

/-- The fields `SQLiteBackend.save` reads from its `capture` dict (for a
pipeline save this is `{**capture, **nmem_payload}`;  missing keys take
the `.get` defaults). -/
structure SaveRecord where
  url : String := ""
  url_type : String := "web"
  title : String := ""
  author : String := ""
  content : String := ""
  summary : String := ""
  labels : List String := []
  importance : ℚ := 1 / 2
  published_at : String := ""
  stats : List (String × Nat) := []

/-- The row `SQLiteBackend.save` writes: note the `content[:20000]` cap
and `captured_at = now`. -/
def saveRow (c : SaveRecord) (now : String) : StoredRow :=
  { id := _url_id c.url,
    url := c.url,
    url_type := c.url_type,
    title := c.title,
    author := c.author,
    content := pyTake c.content 20000,
    summary := c.summary,
    labels := c.labels,
    importance := c.importance,
    published_at := c.published_at,
    captured_at := now,
    stats := c.stats }

/-- The database state. -/
abbrev DB := List StoredRow

/-- `SQLiteBackend.save`: `INSERT OR REPLACE` keyed by the unique
columns, returning the deterministic id. -/
def dbSave (db : DB) (c : SaveRecord) (now : String) : String × DB :=
  let uid := _url_id c.url
  (uid, db.filter (fun r => !(r.id == uid || r.url == c.url)) ++ [saveRow c now])

/-- `SQLiteBackend.exists`: `SELECT 1 FROM captures WHERE url=?`. -/
def dbExists (db : DB) (url : String) : Bool := db.any (fun r => r.url == url)

/-! ## `capture.py` pipeline -/

/-- `capture.py::auto_summary`; the source's `max_len` parameter
defaults to 400 and `run` passes no other value. -/
def auto_summary (capture : Capture) (max_len : Nat) : String :=
  let url_type := capture.url_type
  let content := capture.content
  let stats := capture.stats
  let parts : List String :=
    if url_type = "twitter" then
      [if capture.screen_name ≠ "" then "Tweet by @" ++ capture.screen_name ++ ":" else "Tweet:",
       pyTake content 200] ++
      (if stats ≠ [] then
        ["[" ++ commaFmt (statGet stats "views") ++ " views · " ++
           commaFmt (statGet stats "likes") ++ " likes · " ++
           commaFmt (statGet stats "bookmarks") ++ " bookmarks]"]
       else []) ++
      (match capture.quote_tweet with
       | some qt => ["Quoting @" ++ qt.1 ++ ": " ++ pyTake qt.2 100]
       | none => [])
    else if url_type = "youtube" then
      let ch := if capture.channel ≠ "" then capture.channel else capture.author
      ["YouTube video by " ++ ch ++ " (" ++ toString (capture.duration_secs / 60) ++ " min) [" ++
         capture.transcript_method ++ "]",
       if capture.transcript ≠ "" then pyTake capture.transcript 300 else pyTake content 300]
    else
      (if capture.author ≠ "" ∧ capture.author ≠ capture.domain then
        ["Article by " ++ capture.author ++ " (" ++ capture.domain ++ "):"]
       else []) ++ [pyTake content 300]
  pyTake (String.intercalate "\n" parts) max_len

/-- The merged dict `{**capture, **nmem_payload}` that `run` passes to
`SQLiteBackend.save`: the payload overrides `title`, `labels` and
`importance`; neither dict carries a `summary` key, so `save` reads its
default `""`. -/
def mergeForSave (capture : Capture) (p : NmemPayload) : SaveRecord :=
  { url := capture.url,
    url_type := capture.url_type,
    title := p.title,
    author := capture.author,
    content := capture.content,
    summary := "",
    labels := p.labels,
    importance := p.importance,
    published_at := capture.published_at,
    stats := capture.stats }

/-- The result dictionary assembled by `capture.py::run`. -/
structure RunResult where
  url : String
  status : String
  url_type : Option String
  title : Option String
  summary : Option String
  labels : List String
  importance : ℚ
  nmem_payload : Option NmemPayload
  dedup_exists : Bool
  sqlite_id : Option String
  error : Option String

/-- The store operations `run` performs against the SQLite backend. -/
inductive StoreOp where
  | existsQuery (url : String)
  | saveWrite (id : String)
deriving DecidableEq

/-- `capture.py::run` with the default `backend="sqlite"`.  The fetch
step's outcome (a capture, or the raised exception's message) is the
`fetched` argument, since the fetchers' network activity is external;
`now` is the save timestamp.  Returns the result record, the database
after the run, and the store operations performed. -/
def run (url : String) (fetched : Except String Capture) (db : DB) (now : String) :
    RunResult × DB × List StoreOp :=
  let result : RunResult :=
    { url := url, status := "ok", url_type := none, title := none, summary := none,
      labels := [], importance := 1 / 2, nmem_payload := none, dedup_exists := false,
      sqlite_id := none, error := none }
  match fetched with
  | .error e => ({ result with status := "error", error := some e }, db, [])
  | .ok capture =>
    let result := { result with url_type := some capture.url_type, title := some capture.title }
    let summary := auto_summary capture 400
    let payload := format_for_nmem capture summary
    let result := { result with summary := some summary, nmem_payload := some payload,
                                labels := payload.labels, importance := payload.importance }
    let ex := dbExists db url
    let result := { result with dedup_exists := ex }
    if ex then (result, db, [.existsQuery url])
    else
      let saved := dbSave db (mergeForSave capture payload) now
      ({ result with sqlite_id := some saved.1 }, saved.2,
       [.existsQuery url, .saveWrite saved.1])

/-! ## Theorems -/

theorem foldl_filter_append (l : List (String × List String)) (p : String × List String → Bool)
    (init : List String) :
    l.foldl (fun acc lk => if p lk then acc ++ [lk.1] else acc) init
      = init ++ (l.filter p).map (fun lk => lk.1) := by
  induction l generalizing init with
  | nil => simp
  | cons x xs ih =>
    by_cases h : p x <;> simp [List.filter_cons, h, ih]

/-- Claim C1: for every capture the importance score equals the spec's
quantized decision table keyed by source kind (tweet = `twitter`
captures, video = `youtube` captures, anything else web), with the stat
arguments read from the stats dictionary defaulting to zero, conditions
checked in the listed order and strict greater-than throughout; and a
tweet with exactly `views = 100000` and no other qualifying stat scores
the third level 0.65, not the second. -/
theorem importance_matches_decision_table :
    (∀ c : Capture,
      compute_importance c =
        importanceSpecTable (sourceKindOf c) (statGet c.stats "views")
          (statGet c.stats "bookmarks") (statGet c.stats "likes")) ∧
    compute_importance { url_type := "twitter", stats := [("views", 100000)] } = 13 / 20 := by
  constructor
  · intro c
    unfold compute_importance importanceSpecTable sourceKindOf
    by_cases h1 : c.url_type = "twitter"
    · simp [h1]
    · by_cases h2 : c.url_type = "youtube" <;> simp [h1, h2]
  · rfl

/-- Claim C3: URL routing checks the tweet patterns first, then the
video patterns, then any http(s) URL as the web fallback; a URL matching
none of the patterns and lacking an http(s) scheme yields the
`Unsupported URL` error, so no fetcher is invoked. -/
theorem url_routing_priority :
    (∀ u : String, is_twitter_url u = true → fetchRoute u = .ok .twitter) ∧
    (∀ u : String, is_twitter_url u = false → is_youtube_url u = true →
      fetchRoute u = .ok .youtube) ∧
    (∀ u : String, is_twitter_url u = false → is_youtube_url u = false →
      is_web_url u = true → fetchRoute u = .ok .web) ∧
    (∀ u : String, is_twitter_url u = false → is_youtube_url u = false →
      is_web_url u = false → fetchRoute u = Except.error ("Unsupported URL: " ++ u)) := by
  refine ⟨?_, ?_, ?_, ?_⟩ <;> intro u <;> intros <;> simp [fetchRoute, *]

/-- Witness for `url_routing_priority` at concrete URLs of each class. -/
theorem url_routing_priority_witness :
    fetchRoute "https://x.com/user/status/123" = .ok .twitter ∧
    fetchRoute "https://youtu.be/abc" = .ok .youtube ∧
    fetchRoute "https://example.com/article" = .ok .web ∧
    fetchRoute "mailto:someone@example.com"
      = Except.error ("Unsupported URL: " ++ "mailto:someone@example.com") :=
  ⟨url_routing_priority.1 _ (by decide),
   url_routing_priority.2.1 _ (by decide) (by decide),
   url_routing_priority.2.2.1 _ (by decide) (by decide) (by decide),
   url_routing_priority.2.2.2 _ (by decide) (by decide) (by decide)⟩

/-- Claim C4: the generated label list starts with `source-<url_type>`,
continues with exactly the topic-table labels whose keywords occur in
the lower-cased concatenation of title and summary (in table order), and
is capped at 6 entries, dropping later candidates. -/
theorem auto_labels_shape :
    ∀ (c : Capture) (s : String),
      (_auto_labels c s).length ≤ 6 ∧
      (_auto_labels c s).head? = some ("source-" ++ c.url_type) ∧
      _auto_labels c s = (("source-" ++ c.url_type) :: matchedTopicLabels c s).take 6 := by
  intro c s
  have h : _auto_labels c s = (("source-" ++ c.url_type) :: matchedTopicLabels c s).take 6 := by
    simp only [_auto_labels, matchedTopicLabels]
    rw [foldl_filter_append]
    simp
  refine ⟨?_, ?_, h⟩
  · rw [h, List.length_take]
    exact Nat.min_le_left _ _
  · rw [h]
    rfl

/-- Claim C10: the SQLite store truncates the `content` column to 20000
characters on every save, so every row it writes satisfies the bound. -/
theorem store_caps_content :
    ∀ (c : SaveRecord) (now : String),
      (saveRow c now).content = pyTake c.content 20000 ∧
      (saveRow c now).content.length ≤ 20000 := by
  intro c now
  refine ⟨rfl, ?_⟩
  show (pyTake c.content 20000).length ≤ 20000
  simp only [pyTake, String.length, List.length_take]
  exact Nat.min_le_left _ _

/-- Claim C8: when the fetch step fails, `run` returns `status="error"`
with the exception's message in `error`, leaves the database untouched,
performs no store operation at all (in particular the dedup existence
query is never issued), and records no `sqlite_id`. -/
theorem fetch_error_short_circuits :
    ∀ (url msg : String) (db : DB) (now : String),
      (run url (.error msg) db now).1.status = "error" ∧
      (run url (.error msg) db now).1.error = some msg ∧
      (run url (.error msg) db now).1.dedup_exists = false ∧
      (run url (.error msg) db now).1.sqlite_id = none ∧
      (run url (.error msg) db now).2.1 = db ∧
      (run url (.error msg) db now).2.2 = [] := by
  intro url msg db now
  exact ⟨rfl, rfl, rfl, rfl, rfl, rfl⟩

/-- A tweet response whose reported author is empty (the claim's trigger
condition) and whose raw content ends in the trailing attribution
`(@realhandle) Jan 1, 2024`. -/
def attributionTweet : TweetData :=
  { text := "Great thread on AI agents... (@realhandle) Jan 1, 2024",
    author := { name := "", screen_name := "" } }

/-- Counterexample to claim C6: on a tweet whose reported author is
empty and whose raw content ends in `(@realhandle) Jan 1, 2024`, the
code's normalization does not recover `@realhandle` — the capture's
author is the reported (empty) name, because `fetchers/twitter.py` has
no attribution-scanning logic at all. -/
theorem author_recovery_counterexample :
    (twitter_fetch "https://x.com/i/status/1" attributionTweet).author = "" ∧
    (twitter_fetch "https://x.com/i/status/1" attributionTweet).author ≠ "@realhandle" := by
  exact ⟨rfl, by decide⟩

/-- Claim C6 as amended: the capture's author is always the
adapter-reported author name, taken verbatim; no recovery from the
trailing attribution line occurs, even when the reported author is empty
or a placeholder. -/
theorem author_is_reported_name :
    ∀ (url : String) (t : TweetData), (twitter_fetch url t).author = t.author.name := by
  intro url t
  rfl

/-- A 20001-character content string, exceeding the store's cap. -/
def longTweetText : String := String.mk (List.replicate 20001 'a')

def longTweet : TweetData := { text := longTweetText }

def longSaveRecord : SaveRecord := { url := "https://x.com/u/status/9", content := longTweetText }

theorem longTweetText_length : longTweetText.length = 20001 := by
  show (List.replicate 20001 'a').length = 20001
  exact List.length_replicate _ _

theorem longTweetText_ne_empty : longTweetText ≠ "" := by
  intro h
  have h2 : longTweetText.length = 0 := by rw [h]; rfl
  rw [longTweetText_length] at h2
  exact absurd h2 (by decide)

/-- Counterexample to claim C7: a tweet capture's `content` is not
truncated at normalization time (a 20001-character text passes through
`fetchers/twitter.py::fetch` at full length), and the SQLite store does
apply a cap downstream — it persists only 20000 of those characters.  So
the cap is applied by the store, not once at normalization. -/
theorem content_cap_counterexample :
    (twitter_fetch "https://x.com/u/status/9" longTweet).content.length = 20001 ∧
    (saveRow longSaveRecord "2024-01-01T00:00:00").content.length = 20000 := by
  constructor
  · show (twitterContent longTweet).length = 20001
    have hc : twitterContent longTweet = longTweetText := by
      simp [twitterContent, longTweet, longTweetText_ne_empty]
    rw [hc]
    exact longTweetText_length
  · show (pyTake longTweetText 20000).length = 20000
    show ((List.replicate 20001 'a').take 20000).length = 20000
    rw [List.length_take, List.length_replicate]
    omega

/-- Claim C7 as amended: the 20000-character `content` cap is enforced
by the SQLite store on every save (downstream of normalization), while
the tweet fetcher's normalization passes `content` through untruncated.
-/
theorem content_cap_at_store_not_normalization :
    (∀ (c : SaveRecord) (now : String),
      (saveRow c now).content = pyTake c.content 20000) ∧
    (∀ (url : String) (t : TweetData),
      (twitter_fetch url t).content = twitterContent t) := by
  exact ⟨fun _ _ => rfl, fun _ _ => rfl⟩

/-- A media-only tweet: photos present, empty text. -/
def mediaOnlyTweet : TweetData :=
  { text := "", media_photos := ["https://pbs.twimg.com/media/abc.jpg"] }

/-- Claim C9's failing input, evaluated: the tweet fetcher computes the
`is_media_only` flag (true here) but discards it, the produced capture
has empty content, and the pipeline run still ends with `status="ok"`
and no error — the EmptyResult condition is never surfaced. -/
theorem empty_result_not_surfaced :
    is_media_only mediaOnlyTweet = true ∧
    (twitter_fetch "https://x.com/u/status/7" mediaOnlyTweet).content = "" ∧
    (run "https://x.com/u/status/7"
      (.ok (twitter_fetch "https://x.com/u/status/7" mediaOnlyTweet)) [] "t").1.status = "ok" ∧
    (run "https://x.com/u/status/7"
      (.ok (twitter_fetch "https://x.com/u/status/7" mediaOnlyTweet)) [] "t").1.error = none := by
  exact ⟨rfl, rfl, rfl, rfl⟩

theorem flatten_map_wordBytes_length (l : List Nat) :
    ((l.map wordBytes).flatten).length = 4 * l.length := by
  induction l with
  | nil => simp
  | cons x xs ih => simp [wordBytes, ih]; omega

theorem flatten_map_byteHex_length (l : List Nat) :
    ((l.map byteHex).flatten).length = 2 * l.length := by
  induction l with
  | nil => simp
  | cons x xs ih => simp [byteHex, ih]; omega

theorem sha256Words_length (msg : List Nat) : (sha256Words msg).length = 8 := by
  simp [sha256Words]

theorem sha256Bytes_length (msg : List Nat) : (sha256Bytes msg).length = 32 := by
  show ((sha256Words msg).map wordBytes).flatten.length = 32
  rw [flatten_map_wordBytes_length, sha256Words_length]

theorem sha256hexChars_length (msg : List Nat) : (sha256hexChars msg).length = 64 := by
  show ((sha256Bytes msg).map byteHex).flatten.length = 64
  rw [flatten_map_byteHex_length, sha256Bytes_length]

theorem _url_id_length (url : String) : (_url_id url).length = 16 := by
  show ((sha256hexChars (utf8Bytes url)).take 16).length = 16
  rw [List.length_take, sha256hexChars_length]
  decide

theorem filter_conflict_then_url (l : DB) (uid u : String) :
    (l.filter (fun r => !(r.id == uid || r.url == u))).filter (fun r => r.url == u) = [] := by
  rw [List.filter_eq_nil_iff]
  intro r hr
  have h2 := List.of_mem_filter hr
  simp at h2 ⊢
  exact h2.2

/-- Claim C2: saving two records for the same URL yields the same id
both times — a deterministic id of fixed length 16 (the truncated
SHA-256 hex digest of the URL) — and after the second save the rows
stored for that URL are exactly the single row written by the second
save, whose every column (stats, labels, importance, and the
`captured_at` timestamp `n2`) comes from the second record. -/
theorem save_idempotent_upsert :
    ∀ (db : DB) (c1 c2 : SaveRecord) (n1 n2 : String), c1.url = c2.url →
      (dbSave db c1 n1).1 = (dbSave db c2 n2).1 ∧
      ((dbSave db c1 n1).1).length = 16 ∧
      ((dbSave (dbSave db c1 n1).2 c2 n2).2).filter (fun r => r.url == c2.url)
        = [saveRow c2 n2] := by
  intro db c1 c2 n1 n2 hu
  refine ⟨by simp [dbSave, hu], _url_id_length _, ?_⟩
  show (((dbSave db c1 n1).2.filter
      (fun r => !(r.id == _url_id c2.url || r.url == c2.url))) ++ [saveRow c2 n2]).filter
      (fun r => r.url == c2.url) = [saveRow c2 n2]
  rw [List.filter_append, filter_conflict_then_url]
  simp [saveRow]

def exampleRecord : SaveRecord :=
  { url := "https://example.com/post", content := "hello", labels := ["source-web"] }

/-- Witness for `save_idempotent_upsert` on a concrete record saved
twice with different timestamps. -/
theorem save_idempotent_upsert_witness :
    (dbSave [] exampleRecord "2024-01-01T00:00:00").1
      = (dbSave [] exampleRecord "2024-01-02T00:00:00").1 ∧
    ((dbSave [] exampleRecord "2024-01-01T00:00:00").1).length = 16 ∧
    ((dbSave (dbSave [] exampleRecord "2024-01-01T00:00:00").2 exampleRecord
        "2024-01-02T00:00:00").2).filter (fun r => r.url == exampleRecord.url)
      = [saveRow exampleRecord "2024-01-02T00:00:00"] :=
  save_idempotent_upsert [] exampleRecord exampleRecord
    "2024-01-01T00:00:00" "2024-01-02T00:00:00" rfl

theorem vttStep_eq (acc : List String × List String) (line : String) :
    vttStep acc line =
      match vttClean line with
      | none => acc
      | some cl => if acc.1.contains cl then acc else (acc.1 ++ [cl], acc.2 ++ [cl]) := by
  unfold vttStep vttClean
  cases h1 : vttSkip (trimStr line) with
  | true => simp [h1]
  | false =>
    simp only [h1, Bool.false_eq_true, if_false]
    cases h2 : (trimStr (String.mk (stripTags (trimStr line).data)) != "") with
    | false => simp [h2]
    | true =>
      simp only [h2, Bool.true_and, if_true]
      cases h3 : acc.1.contains (trimStr (String.mk (stripTags (trimStr line).data))) <;>
        simp [h3]

theorem vtt_fold_eq (lines : List String) :
    ∀ (seen out : List String),
      lines.foldl vttStep (seen, out)
        = (seen ++ dedupFirstAux seen (vttCandidates lines),
           out ++ dedupFirstAux seen (vttCandidates lines)) := by
  induction lines with
  | nil => intro seen out; simp [vttCandidates, dedupFirstAux]
  | cons l ls ih =>
    intro seen out
    rw [List.foldl_cons, vttStep_eq]
    cases hc : vttClean l with
    | none => simp [vttCandidates, List.filterMap_cons, hc, ih seen out]
    | some cl =>
      cases hs : seen.contains cl with
      | true =>
        have hs2 : cl ∈ seen := by simpa using hs
        simp only [hs, if_true]
        simp [vttCandidates, List.filterMap_cons, hc, dedupFirstAux, hs2,
              ih seen out]
      | false =>
        have hs2 : cl ∉ seen := by simpa using hs
        simp only [hs, Bool.false_eq_true, if_false]
        rw [ih (seen ++ [cl]) (out ++ [cl])]
        simp [vttCandidates, List.filterMap_cons, hc, dedupFirstAux, hs2, List.append_assoc]

theorem dedupFirstAux_fresh_nodup (l : List String) :
    ∀ seen : List String,
      (∀ x ∈ dedupFirstAux seen l, x ∉ seen) ∧
      (dedupFirstAux seen l).Nodup := by
  induction l with
  | nil => intro seen; simp [dedupFirstAux]
  | cons x xs ih =>
    intro seen
    by_cases h : x ∈ seen
    · simpa [dedupFirstAux, h] using ih seen
    · have ih2 := ih (seen ++ [x])
      simp only [dedupFirstAux]
      rw [if_neg (by simpa using h)]
      constructor
      · intro y hy
        rcases List.mem_cons.mp hy with rfl | hy
        · exact h
        · intro hy2
          exact (ih2.1 y hy) (List.mem_append_left _ hy2)
      · refine List.nodup_cons.mpr ⟨?_, ih2.2⟩
        intro hx
        exact (ih2.1 x hx) (List.mem_append_right _ (List.mem_singleton.mpr rfl))

/-- Claim C5: the VTT caption parser emits each distinct cleaned caption
line at most once per run — its emitted list is duplicate-free and
equals the first-seen-order deduplication of the cleaned candidate lines
(after the header/timestamp/cue-number/empty skips and HTML-tag
stripping) — and on the input lines `["hello","hello","world"]` it
produces `"hello world"`. -/
theorem vtt_dedup_first_seen :
    (∀ lines : List String,
      ((lines.foldl vttStep ([], [])).2).Nodup ∧
      (lines.foldl vttStep ([], [])).2 = dedupFirst (vttCandidates lines)) ∧
    _parse_vtt ["hello", "hello", "world"] = "hello world" := by
  constructor
  · intro lines
    have h := vtt_fold_eq lines [] []
    constructor
    · rw [h]
      simpa [dedupFirst] using (dedupFirstAux_fresh_nodup (vttCandidates lines) []).2
    · rw [h]
      simp [dedupFirst]
  · rfl
